import Mathlib

/-!
Verification of the Egyptian national-id extractor (`extractor.py`).

The source parses a 14-character national-id string into a record of
five fields (birth century, date of birth, birth governorate, sequence
in computer, gender), validating each field.  This file is a shallow
embedding of `EgyptionNationalId.parse_str` and its helpers, together
with theorems settling the behavioural claims about it.

Embedding conventions:
* Python strings are Lean `String`s; slicing works on the underlying
  `List Char`.
* Python exceptions are modelled with `Except`: the `ValidationError`s
  raised by the source are the constructors `malformedInput`
  (message "National id format not valid"), `invalidCentury`
  ("birth century not valid"), `invalidDate` ("birthdate not valid"),
  `unknownGovernorate` ("birth governorate code not valid") and
  `invalidGender` ("gender code not valid"); an escaping Python
  `ValueError` (from `int(...)` or `datetime.strptime`) is `valueError`.
* `datetime.now()` in the source is the ambient clock; it is passed in
  explicitly as a `Date` parameter `now`, and dates compare
  lexicographically by (year, month, day) exactly as `datetime` values
  at midnight do.
* Python's Unicode-aware `str.isdigit` / `int()` are modelled on a
  representative set of character ranges (see `pyDigitVal?` and
  `pyIsDigit`).
-/

namespace EgNid

/-- A calendar date, as the (year, month, day) triple of a Python
`datetime` at midnight. -/
structure Date where
  year : Nat
  month : Nat
  day : Nat
deriving DecidableEq

/-- Strict `datetime` comparison: lexicographic on (year, month, day). -/
def Date.ltB (a b : Date) : Bool :=
  decide (a.year < b.year ∨ (a.year = b.year ∧
    (a.month < b.month ∨ (a.month = b.month ∧ a.day < b.day))))

/-- Non-strict `datetime` comparison: lexicographic on (year, month, day). -/
def Date.leB (a b : Date) : Bool :=
  decide (a.year < b.year ∨ (a.year = b.year ∧
    (a.month < b.month ∨ (a.month = b.month ∧ a.day ≤ b.day))))

/-- The failure modes of `parse_str`: the five `ValidationError`s the
source raises, plus an escaping Python `ValueError`. -/
inductive Err where
  | malformedInput
  | invalidCentury
  | invalidDate
  | unknownGovernorate
  | invalidGender
  | valueError
deriving DecidableEq

/-- The `_ENID` named tuple: the record `parse_str` assembles. -/
structure ENID where
  birth_century : Nat
  date_of_birth : String
  birth_governorate : String
  sequence_in_computer : String
  gender : String
deriving DecidableEq

instance {ε α : Type} [DecidableEq ε] [DecidableEq α] :
    DecidableEq (Except ε α) := fun a b =>
  match a, b with
  | .ok x, .ok y =>
    if h : x = y then isTrue (by rw [h])
    else isFalse (by intro hh; cases hh; exact h rfl)
  | .error x, .error y =>
    if h : x = y then isTrue (by rw [h])
    else isFalse (by intro hh; cases hh; exact h rfl)
  | .ok _, .error _ => isFalse (by intro h; cases h)
  | .error _, .ok _ => isFalse (by intro h; cases h)

/-- ASCII decimal digit `0`-`9`. -/
def isAsciiDigit (c : Char) : Bool := '0' ≤ c && c ≤ '9'

/-- The numeric value Python's `int()` assigns to a single character,
`none` when `int()` raises `ValueError` on it.  Python accepts every
Unicode decimal digit (category Nd); the model covers the ASCII,
Arabic-Indic, Extended Arabic-Indic and Devanagari ranges. -/
def pyDigitVal? (c : Char) : Option Nat :=
  if '0' ≤ c ∧ c ≤ '9' then some (c.toNat - 48)
  else if 0x660 ≤ c.toNat ∧ c.toNat ≤ 0x669 then some (c.toNat - 0x660)
  else if 0x6F0 ≤ c.toNat ∧ c.toNat ≤ 0x6F9 then some (c.toNat - 0x6F0)
  else if 0x966 ≤ c.toNat ∧ c.toNat ≤ 0x96F then some (c.toNat - 0x966)
  else none

/-- Python's per-character `str.isdigit`: true on every Unicode decimal
digit and also on digit-like characters of category No such as the
superscripts (modelled: ¹ ² ³), which `int()` nevertheless rejects. -/
def pyIsDigit (c : Char) : Bool :=
  (pyDigitVal? c).isSome || c = '¹' || c = '²' || c = '³'

/-- Python's `str.isdigit` on a whole string: non-empty and every
character a digit. -/
def pyStrIsDigit (s : List Char) : Bool := !s.isEmpty && s.all pyIsDigit

/-- `int(c)` on a one-character string. -/
def pyIntChar (c : Char) : Except Err Nat :=
  match pyDigitVal? c with
  | some v => Except.ok v
  | none => Except.error Err.valueError

/-- Accumulator for `pyIntList`. -/
def pyIntVal : List Char → Nat → Option Nat
  | [], acc => some acc
  | c :: rest, acc =>
    match pyDigitVal? c with
    | some v => pyIntVal rest (acc * 10 + v)
    | none => none

/-- `int(s)` on a string of digit characters: base-10 value, or a
`ValueError` when empty or containing a character `int()` rejects. -/
def pyIntList (s : List Char) : Except Err Nat :=
  if s.isEmpty then Except.error Err.valueError
  else
    match pyIntVal s 0 with
    | some n => Except.ok n
    | none => Except.error Err.valueError

/-- The ASCII character of a digit value. -/
def digitChar (v : Nat) : Char := Char.ofNat (48 + v)

/-- Fuel-driven decimal rendering; `fuel` bounds the recursion depth and
is always large enough at the call site in `natDigits`. -/
def natDigitsAux : Nat → Nat → List Char
  | 0, _ => []
  | fuel + 1, n =>
    if n < 10 then [digitChar n]
    else natDigitsAux fuel (n / 10) ++ [digitChar (n % 10)]

/-- Decimal rendering of a natural number, as Python's `format` renders
a non-negative `int`. -/
def natDigits (n : Nat) : List Char := natDigitsAux (n + 1) n

/-- Python slice `s[a:b]` (with `0 ≤ a ≤ b` within bounds). -/
def slice (s : List Char) (a b : Nat) : List Char := (s.drop a).take (b - a)

/-- Python indexing `s[i]`; call sites only index within bounds. -/
def charAt (s : List Char) (i : Nat) : Char := s.getD i ' '

/-- The `governorates` class attribute: the fixed code → name table. -/
def governorates : List (String × String) :=
  [("01", "Cairo"),
   ("02", "Alexandria"),
   ("03", "Port Said"),
   ("04", "Suez"),
   ("11", "Damietta"),
   ("12", "Dakahlia"),
   ("13", "Ash Sharqia"),
   ("14", "Kaliobeya"),
   ("15", "Kafr El - Sheikh"),
   ("16", "Gharbia"),
   ("17", "Monoufia"),
   ("18", "El Beheira"),
   ("19", "Ismailia"),
   ("21", "Giza"),
   ("22", "Beni Suef"),
   ("23", "Fayoum"),
   ("24", "El Menia"),
   ("25", "Assiut"),
   ("26", "Sohag"),
   ("27", "Qena"),
   ("28", "Aswan"),
   ("29", "Luxor"),
   ("31", "Red Sea"),
   ("32", "New Valley"),
   ("33", "Matrouh"),
   ("34", "North Sinai"),
   ("35", "South Sinai"),
   ("88", "Foreign")]

/-- Python `dict` lookup on an association list. -/
def assocLookup (k : String) : List (String × String) → Option String
  | [] => none
  | (k2, v) :: rest => if k = k2 then some v else assocLookup k rest

/-- Reverse lookup: first key bound to a given value. -/
def invAssocLookup (v : String) : List (String × String) → Option String
  | [] => none
  | (k, v2) :: rest => if v = v2 then some k else invAssocLookup v rest

/-- Gregorian leap-year rule, as `datetime` uses. -/
def isLeapYear (y : Nat) : Bool :=
  (y % 4 = 0 && y % 100 != 0) || y % 400 = 0

/-- Length of a month, as `datetime` uses. -/
def daysInMonth (y m : Nat) : Nat :=
  if m = 2 then (if isLeapYear y then 29 else 28)
  else if m = 4 ∨ m = 6 ∨ m = 9 ∨ m = 11 then 30
  else 31

/-- The `%m` field of `strptime('%Y-%m-%d')` applied to the two-character
month slice (regex `1[0-2]|0[1-9]|[1-9]`, followed by the literal `-`):
the two characters match exactly when they are ASCII `01`-`12`. -/
def matchMonth2 : List Char → Option Nat
  | [a, b] =>
    if a = '1' ∧ (b = '0' ∨ b = '1' ∨ b = '2') then some (10 + (b.toNat - 48))
    else if a = '0' ∧ ('1' ≤ b ∧ b ≤ '9') then some (b.toNat - 48)
    else none
  | _ => none

/-- The `%d` field of `strptime('%Y-%m-%d')` applied to the two-character
day slice (regex `3[01]|[12]\d|0[1-9]|[1-9]`, followed by end of input);
`\d` matches any Unicode decimal digit. -/
def matchDay2 : List Char → Option Nat
  | [a, b] =>
    if a = '3' ∧ (b = '0' ∨ b = '1') then some (30 + (b.toNat - 48))
    else if a = '1' ∨ a = '2' then
      match pyDigitVal? b with
      | some vb => some ((a.toNat - 48) * 10 + vb)
      | none => none
    else if a = '0' ∧ ('1' ≤ b ∧ b ≤ '9') then some (b.toNat - 48)
    else none
  | _ => none

/-- `datetime.strptime(str(year) ++ "-" ++ mm ++ "-" ++ dd, '%Y-%m-%d')`.
`%Y` is the regex `\d\d\d\d`, so the rendered year must be exactly four
digits; the month and day slices must match their field regexes, and the
`datetime` constructor then checks the day against the month length.
A failed match or constructor check raises `ValueError`. -/
def strptimeYmd (year : Nat) (mm dd : List Char) : Except Err Date :=
  if year < 1000 ∨ 9999 < year then Except.error Err.valueError
  else
    match matchMonth2 mm, matchDay2 dd with
    | some m, some d =>
      if d ≤ daysInMonth year m then Except.ok ⟨year, m, d⟩
      else Except.error Err.valueError
    | _, _ => Except.error Err.valueError

/-- `EgyptionNationalId.__get_century_from_year`. -/
def get_century_from_year (year : Nat) : Nat := year / 100 + 1

/-- `EgyptionNationalId.__get_birth_century`.  Note the guard is the
source's literal conjunction `birth_century < 19 and birth_century >
current_century`, which is unsatisfiable. -/
def get_birth_century (now : Date) (birth_century_code : Nat) : Except Err Nat :=
  let current_century := get_century_from_year now.year
  let birth_century := birth_century_code + 18
  if birth_century < 19 ∧ current_century < birth_century then
    Except.error Err.invalidCentury
  else Except.ok birth_century

/-- `EgyptionNationalId.__get_birth_governorate`: `dict` lookup, with
`KeyError` turned into the governorate `ValidationError`. -/
def get_birth_governorate (birth_governorate_coda : String) : Except Err String :=
  match assocLookup birth_governorate_coda governorates with
  | some v => Except.ok v
  | none => Except.error Err.unknownGovernorate

/-- `EgyptionNationalId.__get_gender`.  Note the guard is the source's
literal conjunction `gender_code < 0 and gender_code > 9`, which is
unsatisfiable. -/
def get_gender (gender_code : Nat) : Except Err String :=
  if gender_code < 0 ∧ 9 < gender_code then Except.error Err.invalidGender
  else if gender_code % 2 = 0 then Except.ok "Female"
  else Except.ok "Male"

/-- `EgyptionNationalId.__convert_birthdate` on the 7-character slice
`national_id[0:7]`.  It re-runs the century computation on the leading
digit, formats `'{year}-{mm}-{dd}'`, re-parses that string with
`strptime`, applies the source's literal (unsatisfiable) range guard
`birthdate_date > now and birthdate_date < 1900-01-01`, and returns the
formatted string. -/
def convert_birthdate (now : Date) (birthdate : List Char) : Except Err String :=
  match pyIntChar (charAt birthdate 0) with
  | .error e => .error e
  | .ok code =>
    match get_birth_century now code with
    | .error e => .error e
    | .ok birth_century =>
      let birth_year := slice birthdate 1 3
      let birth_month := slice birthdate 3 5
      let birth_day := birthdate.drop 5
      match pyIntList birth_year with
      | .error e => .error e
      | .ok yy =>
        let birth_full_year := birth_century * 100 - 100 + yy
        match strptimeYmd birth_full_year birth_month birth_day with
        | .error e => .error e
        | .ok birthdate_date =>
          if Date.ltB now birthdate_date = true ∧
             Date.ltB birthdate_date ⟨1900, 1, 1⟩ = true then
            .error Err.invalidDate
          else
            .ok (String.mk (natDigits birth_full_year ++
              '-' :: birth_month ++ '-' :: birth_day))

/-- `EgyptionNationalId.parse_str`, with `datetime.now()` passed in as
`now`.  Steps, in source order: structural check, `int` of the leading
character, century check, birth-date conversion, governorate lookup,
sequence slice, `int` of character 12, gender derivation. -/
def parse_str (now : Date) (national_id : String) : Except Err ENID :=
  if national_id.data.length ≠ 14 ∨ pyStrIsDigit national_id.data = false then
    .error Err.malformedInput
  else
    match pyIntChar (charAt national_id.data 0) with
    | .error e => .error e
    | .ok d0 =>
      match get_birth_century now d0 with
      | .error e => .error e
      | .ok birth_century =>
        match convert_birthdate now (slice national_id.data 0 7) with
        | .error e => .error e
        | .ok date_of_birth =>
          match get_birth_governorate (String.mk (slice national_id.data 7 9)) with
          | .error e => .error e
          | .ok birth_governorate =>
            match pyIntChar (charAt national_id.data 12) with
            | .error e => .error e
            | .ok g =>
              match get_gender g with
              | .error e => .error e
              | .ok gender =>
                .ok ⟨birth_century, date_of_birth, birth_governorate,
                     String.mk (slice national_id.data 9 13), gender⟩

/-- The reference date 2023-01-01 used by the concrete examples. -/
def d20230101 : Date := ⟨2023, 1, 1⟩

/-- Numeric value of an ASCII digit character. -/
def digitVal (c : Char) : Nat := c.toNat - 48

/-- Modelled from the spec: the century/date/governorate/gender
constraints of the spec's invariants section, on a 14-digit input.
Century = leading digit + 18 must lie in [19, now.year / 100 + 1]; the
composed (year, month, day) must be a real calendar date within
[1900-01-01, now]; positions 7-8 must be a key of the governorate
table; the gender digit at position 12 must be in [1, 9]. -/
def specConstraints (now : Date) (L : List Char) : Bool :=
  let century := digitVal (charAt L 0) + 18
  let yy := digitVal (charAt L 1) * 10 + digitVal (charAt L 2)
  let year := (century - 1) * 100 + yy
  let mm := digitVal (charAt L 3) * 10 + digitVal (charAt L 4)
  let dd := digitVal (charAt L 5) * 10 + digitVal (charAt L 6)
  decide (19 ≤ century) && decide (century ≤ get_century_from_year now.year) &&
  decide (1 ≤ mm) && decide (mm ≤ 12) &&
  decide (1 ≤ dd) && decide (dd ≤ daysInMonth year mm) &&
  Date.leB ⟨1900, 1, 1⟩ ⟨year, mm, dd⟩ && Date.leB ⟨year, mm, dd⟩ now &&
  (assocLookup (String.mk (slice L 7 9)) governorates).isSome &&
  decide (1 ≤ digitVal (charAt L 12)) && decide (digitVal (charAt L 12) ≤ 9)

/-- Reconstruction of the first 13 characters of the input from a parsed
record: the century digit from `birth_century - 18`, the `yymmdd` digits
from the `yyyy-mm-dd` date string (characters 2-3, 5-6 and 8-9), the
governorate code from the inverse table lookup, and the four sequence
characters verbatim. -/
def reconstruct13 (r : ENID) : Option (List Char) :=
  match invAssocLookup r.birth_governorate governorates with
  | none => none
  | some code =>
    let ds := r.date_of_birth.data
    some (digitChar (r.birth_century - 18) ::
      ((ds.drop 2).take 2 ++ (ds.drop 5).take 2 ++ (ds.drop 8).take 2 ++
        code.data ++ r.sequence_in_computer.data))

/-- Helper: digit values below 10, packaged as `Fin 10` for finite
case analysis. -/
theorem pyDigitVal_digitChar_fin :
    ∀ v : Fin 10, pyDigitVal? (digitChar v.val) = some v.val := by decide

/-- Helper: `pyDigitVal?` on an ASCII digit character. -/
theorem pyDigitVal_digitChar {v : Nat} (h : v < 10) :
    pyDigitVal? (digitChar v) = some v := pyDigitVal_digitChar_fin ⟨v, h⟩

/-- Helper: `digitVal` inverts `digitChar` on digit values. -/
theorem digitVal_digitChar_fin :
    ∀ v : Fin 10, digitVal (digitChar v.val) = v.val := by decide

/-- Helper: `digitVal` inverts `digitChar`. -/
theorem digitVal_digitChar {v : Nat} (h : v < 10) :
    digitVal (digitChar v) = v := digitVal_digitChar_fin ⟨v, h⟩

/-- Helper: digit characters satisfy `pyIsDigit`. -/
theorem pyIsDigit_digitChar_fin :
    ∀ v : Fin 10, pyIsDigit (digitChar v.val) = true := by decide

/-- Helper: `int()` of a digit character. -/
theorem pyIntChar_digitChar {v : Nat} (h : v < 10) :
    pyIntChar (digitChar v) = Except.ok v := by
  unfold pyIntChar
  rw [pyDigitVal_digitChar h]

/-- Helper: `int()` of a two-digit string. -/
theorem pyIntList_two_fin :
    ∀ a b : Fin 10, pyIntList [digitChar a.val, digitChar b.val] =
      Except.ok (10 * a.val + b.val) := by decide

/-- Helper: the month regex matches two ASCII digits exactly when their
value is in [1, 12], and yields that value. -/
theorem matchMonth2_digits_fin :
    ∀ a b : Fin 10, 1 ≤ 10 * a.val + b.val → 10 * a.val + b.val ≤ 12 →
      matchMonth2 [digitChar a.val, digitChar b.val] =
        some (10 * a.val + b.val) := by decide

/-- Helper: the day regex matches two ASCII digits with value in
[1, 31], and yields that value. -/
theorem matchDay2_digits_fin :
    ∀ a b : Fin 10, 1 ≤ 10 * a.val + b.val → 10 * a.val + b.val ≤ 31 →
      matchDay2 [digitChar a.val, digitChar b.val] =
        some (10 * a.val + b.val) := by decide

/-- Helper: every ASCII digit character is `digitChar` of a value
below 10. -/
theorem asciiDigit_inv {c : Char} (h : isAsciiDigit c = true) :
    ∃ v, v < 10 ∧ c = digitChar v := by
  rw [isAsciiDigit, Bool.and_eq_true, decide_eq_true_eq, decide_eq_true_eq] at h
  have h48 : 48 ≤ c.toNat := by
    have := h.1
    rw [Char.le_def] at this
    exact this
  have h57 : c.toNat ≤ 57 := by
    have := h.2
    rw [Char.le_def] at this
    exact this
  refine ⟨c.toNat - 48, by omega, ?_⟩
  have heq : 48 + (c.toNat - 48) = c.toNat := by omega
  rw [digitChar, heq, Char.ofNat_toNat]

/-- Helper: months have at most 31 days. -/
theorem daysInMonth_le_31 (y m : Nat) : daysInMonth y m ≤ 31 := by
  unfold daysInMonth
  split_ifs <;> omega

/-- Helper: `a ≤ b` makes the strict comparison `b < a` false. -/
theorem Date_ltB_false_of_leB {a b : Date} (h : Date.leB a b = true) :
    Date.ltB b a = false := by
  rw [Date.leB, decide_eq_true_eq] at h
  rw [Date.ltB, decide_eq_false_iff_not]
  omega

/-- Helper: one unfolding of `natDigitsAux` above 10. -/
theorem natDigitsAux_succ_big (f n : Nat) (h : 10 ≤ n) :
    natDigitsAux (f + 1) n = natDigitsAux f (n / 10) ++ [digitChar (n % 10)] := by
  rw [natDigitsAux, if_neg (by omega)]

/-- Helper: one unfolding of `natDigitsAux` below 10. -/
theorem natDigitsAux_succ_small (f n : Nat) (h : n < 10) :
    natDigitsAux (f + 1) n = [digitChar n] := by
  rw [natDigitsAux, if_pos h]

/-- Helper: decimal rendering of a four-digit number. -/
theorem natDigits_four {n : Nat} (h1 : 1000 ≤ n) (h2 : n ≤ 9999) :
    natDigits n = [digitChar (n / 10 / 10 / 10), digitChar (n / 10 / 10 % 10),
      digitChar (n / 10 % 10), digitChar (n % 10)] := by
  obtain ⟨m, rfl⟩ : ∃ m, n = m + 1 := ⟨n - 1, by omega⟩
  obtain ⟨m2, rfl⟩ : ∃ m2, m = m2 + 1 := ⟨m - 1, by omega⟩
  obtain ⟨m3, rfl⟩ : ∃ m3, m2 = m3 + 1 := ⟨m2 - 1, by omega⟩
  rw [natDigits, natDigitsAux_succ_big _ _ (by omega),
    natDigitsAux_succ_big _ _ (by omega),
    natDigitsAux_succ_big _ _ (by omega),
    natDigitsAux_succ_small _ _ (by omega)]
  simp

/-- Helper: a list of length 14 is an explicit 14-tuple of elements. -/
theorem list_len14 {α : Type} (L : List α) (h : L.length = 14) :
    ∃ a0 a1 a2 a3 a4 a5 a6 a7 a8 a9 a10 a11 a12 a13,
      L = [a0, a1, a2, a3, a4, a5, a6, a7, a8, a9, a10, a11, a12, a13] := by
  cases L with
  | nil => simp at h
  | cons a0 L =>
  cases L with
  | nil => simp at h
  | cons a1 L =>
  cases L with
  | nil => simp at h
  | cons a2 L =>
  cases L with
  | nil => simp at h
  | cons a3 L =>
  cases L with
  | nil => simp at h
  | cons a4 L =>
  cases L with
  | nil => simp at h
  | cons a5 L =>
  cases L with
  | nil => simp at h
  | cons a6 L =>
  cases L with
  | nil => simp at h
  | cons a7 L =>
  cases L with
  | nil => simp at h
  | cons a8 L =>
  cases L with
  | nil => simp at h
  | cons a9 L =>
  cases L with
  | nil => simp at h
  | cons a10 L =>
  cases L with
  | nil => simp at h
  | cons a11 L =>
  cases L with
  | nil => simp at h
  | cons a12 L =>
  cases L with
  | nil => simp at h
  | cons a13 L =>
  cases L with
  | cons a14 L => simp at h
  | nil =>
    exact ⟨a0, a1, a2, a3, a4, a5, a6, a7, a8, a9, a10, a11, a12, a13, rfl⟩

/-- Helper: a successful association lookup yields a stored value. -/
theorem assocLookup_mem_snd {k v : String} :
    ∀ t : List (String × String), assocLookup k t = some v →
      v ∈ t.map Prod.snd := by
  intro t
  induction t with
  | nil => intro h; simp [assocLookup] at h
  | cons p rest ih =>
    intro h
    obtain ⟨k0, v0⟩ := p
    rw [assocLookup] at h
    by_cases hk : k = k0
    · rw [if_pos hk] at h
      injection h with h
      simp [h]
    · rw [if_neg hk] at h
      simp [ih h]

/-- Helper: when the stored values are pairwise distinct, the reverse
lookup inverts a successful forward lookup. -/
theorem assocLookup_inv {k v : String} :
    ∀ t : List (String × String), (t.map Prod.snd).Nodup →
      assocLookup k t = some v → invAssocLookup v t = some k := by
  intro t
  induction t with
  | nil => intro _ h; simp [assocLookup] at h
  | cons p rest ih =>
    intro hnd h
    obtain ⟨k0, v0⟩ := p
    rw [List.map_cons, List.nodup_cons] at hnd
    rw [assocLookup] at h
    by_cases hk : k = k0
    · rw [if_pos hk] at h
      injection h with h
      rw [invAssocLookup, if_pos h.symm, hk]
    · rw [if_neg hk] at h
      have hv : v ≠ v0 := by
        intro hvv
        exact hnd.1 (hvv ▸ assocLookup_mem_snd rest h)
      rw [invAssocLookup, if_neg hv, ih hnd.2 h]

/-- Helper: the stored governorate names are pairwise distinct. -/
theorem governorates_snd_nodup : (governorates.map Prod.snd).Nodup := by
  decide

/-- Helper: the gender guard is unsatisfiable, so `__get_gender` always
returns the parity-derived string. -/
theorem get_gender_ok (g : Nat) :
    get_gender g = Except.ok (if g % 2 = 0 then "Female" else "Male") := by
  unfold get_gender
  rw [if_neg (by omega)]
  by_cases h : g % 2 = 0
  · rw [if_pos h, if_pos h]
  · rw [if_neg h, if_neg h]

/-- Helper: `int()` of a character never fails with the structural
`ValidationError`. -/
theorem pyIntChar_ne_malformed (c : Char) :
    pyIntChar c ≠ Except.error Err.malformedInput := by
  unfold pyIntChar
  split <;> simp

/-- Helper: the century check never fails with the structural
`ValidationError`. -/
theorem get_birth_century_ne_malformed (now : Date) (code : Nat) :
    get_birth_century now code ≠ Except.error Err.malformedInput := by
  unfold get_birth_century
  dsimp only
  split <;> simp

/-- Helper: `int()` of a string never fails with the structural
`ValidationError`. -/
theorem pyIntList_ne_malformed (L : List Char) :
    pyIntList L ≠ Except.error Err.malformedInput := by
  unfold pyIntList
  split
  · simp
  · split <;> simp

/-- Helper: `strptime` never fails with the structural
`ValidationError`. -/
theorem strptimeYmd_ne_malformed (year : Nat) (mm dd : List Char) :
    strptimeYmd year mm dd ≠ Except.error Err.malformedInput := by
  unfold strptimeYmd
  split
  · simp
  · split
    · split <;> simp
    · simp

/-- Helper: the birth-date conversion never fails with the structural
`ValidationError`. -/
theorem convert_birthdate_ne_malformed (now : Date) (L : List Char) :
    convert_birthdate now L ≠ Except.error Err.malformedInput := by
  unfold convert_birthdate
  dsimp only
  split
  · rename_i e heq
    intro hh
    injection hh with hh
    exact pyIntChar_ne_malformed _ (hh ▸ heq)
  · split
    · rename_i e heq
      intro hh
      injection hh with hh
      exact get_birth_century_ne_malformed _ _ (hh ▸ heq)
    · split
      · rename_i e heq
        intro hh
        injection hh with hh
        exact pyIntList_ne_malformed _ (hh ▸ heq)
      · split
        · rename_i e heq
          intro hh
          injection hh with hh
          exact strptimeYmd_ne_malformed _ _ _ (hh ▸ heq)
        · split <;> simp

/-- Helper: the governorate lookup never fails with the structural
`ValidationError`. -/
theorem get_birth_governorate_ne_malformed (coda : String) :
    get_birth_governorate coda ≠ Except.error Err.malformedInput := by
  unfold get_birth_governorate
  split <;> simp

/-- Helper: inversion of a successful `parse_str`: the input passed the
structural check and every field of the record is the output of the
corresponding extraction step. -/
theorem parse_str_ok_inversion {now : Date} {s : String} {r : ENID}
    (h : parse_str now s = Except.ok r) :
    s.data.length = 14 ∧ pyStrIsDigit s.data = true ∧
    ∃ d0 bc ds gov g,
      pyIntChar (charAt s.data 0) = Except.ok d0 ∧
      get_birth_century now d0 = Except.ok bc ∧
      convert_birthdate now (slice s.data 0 7) = Except.ok ds ∧
      get_birth_governorate (String.mk (slice s.data 7 9)) = Except.ok gov ∧
      pyIntChar (charAt s.data 12) = Except.ok g ∧
      r = ⟨bc, ds, gov, String.mk (slice s.data 9 13),
           if g % 2 = 0 then "Female" else "Male"⟩ := by
  unfold parse_str at h
  split at h
  · exact absurd h (by simp)
  · rename_i hcond
    push_neg at hcond
    refine ⟨hcond.1, by simpa using hcond.2, ?_⟩
    split at h
    · exact absurd h (by simp)
    · rename_i d0 h0
      split at h
      · exact absurd h (by simp)
      · rename_i bc hbc
        split at h
        · exact absurd h (by simp)
        · rename_i ds hds
          split at h
          · exact absurd h (by simp)
          · rename_i gov hgov
            split at h
            · exact absurd h (by simp)
            · rename_i g hg
              rw [get_gender_ok g] at h
              injection h with h
              exact ⟨d0, bc, ds, gov, g, h0, hbc, hds, hgov, hg, h.symm⟩

/-- Helper: the only error `int()` of a character raises is
`ValueError`. -/
theorem pyIntChar_error {c : Char} {e : Err} (h : pyIntChar c = Except.error e) :
    e = Err.valueError := by
  unfold pyIntChar at h
  split at h
  · exact absurd h (by simp)
  · injection h with h
    exact h.symm

/-- Helper: the only error the century check raises is the century
`ValidationError`. -/
theorem get_birth_century_error {now : Date} {code : Nat} {e : Err}
    (h : get_birth_century now code = Except.error e) : e = Err.invalidCentury := by
  unfold get_birth_century at h
  dsimp only at h
  split at h
  · injection h with h
    exact h.symm
  · exact absurd h (by simp)

/-- Helper: the only error `int()` of a string raises is `ValueError`. -/
theorem pyIntList_error {L : List Char} {e : Err}
    (h : pyIntList L = Except.error e) : e = Err.valueError := by
  unfold pyIntList at h
  split at h
  · injection h with h
    exact h.symm
  · split at h
    · exact absurd h (by simp)
    · injection h with h
      exact h.symm

/-- Helper: the only error `strptime` raises is `ValueError`. -/
theorem strptimeYmd_error {year : Nat} {mm dd : List Char} {e : Err}
    (h : strptimeYmd year mm dd = Except.error e) : e = Err.valueError := by
  unfold strptimeYmd at h
  split at h
  · injection h with h
    exact h.symm
  · split at h
    · split at h
      · exact absurd h (by simp)
      · injection h with h
        exact h.symm
    · injection h with h
      exact h.symm

/-- Helper: the errors the birth-date conversion raises are the
`ValueError`, the century check's and the date check's. -/
theorem convert_birthdate_error {now : Date} {L : List Char} {e : Err}
    (h : convert_birthdate now L = Except.error e) :
    e = Err.valueError ∨ e = Err.invalidCentury ∨ e = Err.invalidDate := by
  unfold convert_birthdate at h
  dsimp only at h
  split at h
  · rename_i e2 heq
    injection h with h
    exact Or.inl (h ▸ pyIntChar_error heq)
  · split at h
    · rename_i e2 heq
      injection h with h
      exact Or.inr (Or.inl (h ▸ get_birth_century_error heq))
    · split at h
      · rename_i e2 heq
        injection h with h
        exact Or.inl (h ▸ pyIntList_error heq)
      · split at h
        · rename_i e2 heq
          injection h with h
          exact Or.inl (h ▸ strptimeYmd_error heq)
        · split at h
          · injection h with h
            exact Or.inr (Or.inr h.symm)
          · exact absurd h (by simp)

/-- Helper: the only error the governorate lookup raises is the
governorate `ValidationError`. -/
theorem get_birth_governorate_error {coda : String} {e : Err}
    (h : get_birth_governorate coda = Except.error e) :
    e = Err.unknownGovernorate := by
  unfold get_birth_governorate at h
  split at h
  · exact absurd h (by simp)
  · injection h with h
    exact h.symm

/-- Helper: a successful birth-date conversion passed the `int()` of the
leading character and the century check. -/
theorem convert_birthdate_ok_inversion {now : Date} {L : List Char} {ds : String}
    (h : convert_birthdate now L = Except.ok ds) :
    ∃ code bc, pyIntChar (charAt L 0) = Except.ok code ∧
      get_birth_century now code = Except.ok bc := by
  unfold convert_birthdate at h
  dsimp only at h
  split at h
  · exact absurd h (by simp)
  · rename_i code heq
    split at h
    · exact absurd h (by simp)
    · rename_i bc hbc
      exact ⟨code, bc, heq, hbc⟩

/-- Helper: an all-ASCII-digit character passes `pyIsDigit`. -/
theorem ascii_imp_pyIsDigit {c : Char} (h : isAsciiDigit c = true) :
    pyIsDigit c = true := by
  obtain ⟨v, hv, rfl⟩ := asciiDigit_inv h
  exact pyIsDigit_digitChar_fin ⟨v, hv⟩

/-- C1 (counterexample): parsing `"29501023201952"` with now = 2023-01-01
succeeds, but the gender field is `"Male"`, not `"Female"` as claimed:
the gender digit is `national_id[12] = '5'`, which is odd. -/
theorem c1_counterexample :
    parse_str d20230101 "29501023201952" =
      Except.ok ⟨20, "1995-01-02", "New Valley", "0195", "Male"⟩ ∧
    "Male" ≠ "Female" := by
  refine ⟨by decide, by decide⟩

/-- C1 (amended): parsing `"29501023201952"` with now = 2023-01-01 yields
birth_century = 20, date_of_birth = 1995-01-02, birth_governorate =
"New Valley", sequence_in_computer = "0195", and gender = Male. -/
theorem c1_parse_example :
    parse_str d20230101 "29501023201952" =
      Except.ok ⟨20, "1995-01-02", "New Valley", "0195", "Male"⟩ := by
  decide

/-- C2 (code evaluated at the failing input): with now = 2023-01-01 the
leading digit 9 gives century 27, outside [19, 21], yet `parse_str`
succeeds with birth_century = 27 instead of raising `InvalidCentury`:
the source's guard `birth_century < 19 and birth_century >
current_century` is unsatisfiable, so the century check never fires. -/
theorem c2_century_check_vacuous :
    parse_str d20230101 "99501023201952" =
      Except.ok ⟨27, "2695-01-02", "New Valley", "0195", "Male"⟩ := by
  decide

/-- C3 (code evaluated at the failing input): with now = 2023-01-01 the
input composes the date 2099-01-02, later than now, yet `parse_str`
succeeds instead of raising `InvalidDate`: the source's range guard
`birthdate_date > now and birthdate_date < 1900-01-01` is
unsatisfiable, so the date-range check never fires. -/
theorem c3_date_range_check_vacuous :
    parse_str d20230101 "39901023201952" =
      Except.ok ⟨21, "2099-01-02", "New Valley", "0195", "Male"⟩ := by
  decide

/-- C4 (counterexample): the gender digit `national_id[12] = '0'` does
not make `parse_str` fail with `InvalidGender`; the parse succeeds and
0, being even, yields gender `"Female"`: the source's guard
`gender_code < 0 and gender_code > 9` is unsatisfiable. -/
theorem c4_counterexample :
    parse_str d20230101 "29501023201902" =
      Except.ok ⟨20, "1995-01-02", "New Valley", "0190", "Female"⟩ := by
  decide

/-- C5 (counterexample): the governorate table has 28 entries, not 27 —
the claimed key list 01–04, 11–19, 21–29, 31–35, 88 itself has
4 + 9 + 9 + 5 + 1 = 28 codes. -/
theorem c5_counterexample :
    governorates.length = 28 ∧ governorates.length ≠ 27 := by
  decide

/-- C4 (amended): whenever `parse_str` succeeds, the digit value at
position 12 determines the gender purely by parity — even digits
(0 included) yield `"Female"`, odd digits yield `"Male"` — and
`parse_str` never fails with `InvalidGender`, because the source's
gender guard `gender_code < 0 and gender_code > 9` is unsatisfiable. -/
theorem c4_gender_parity (now : Date) (s : String) :
    (∀ r : ENID, parse_str now s = Except.ok r →
      ∃ v, pyDigitVal? (charAt s.data 12) = some v ∧
        r.gender = (if v % 2 = 0 then "Female" else "Male")) ∧
    parse_str now s ≠ Except.error Err.invalidGender := by
  constructor
  · intro r h
    obtain ⟨h14, hdig, d0, bc, ds, gov, g, h0, hbc, hds, hgov, hg, hr⟩ :=
      parse_str_ok_inversion h
    refine ⟨g, ?_, by rw [hr]⟩
    unfold pyIntChar at hg
    rcases hv : pyDigitVal? (charAt s.data 12) with _ | v
    · rw [hv] at hg
      exact absurd hg (by simp)
    · rw [hv] at hg
      injection hg with hg
      rw [hg]
  · intro h
    unfold parse_str at h
    split at h
    · exact absurd h (by simp)
    · split at h
      · rename_i e heq
        injection h with h
        have h2 := pyIntChar_error heq
        rw [h] at h2
        exact absurd h2 (by simp)
      · split at h
        · rename_i e heq
          injection h with h
          have h2 := get_birth_century_error heq
          rw [h] at h2
          exact absurd h2 (by simp)
        · split at h
          · rename_i e heq
            injection h with h
            have h2 := convert_birthdate_error heq
            rw [h] at h2
            rcases h2 with h2 | h2 | h2 <;> exact absurd h2 (by simp)
          · split at h
            · rename_i e heq
              injection h with h
              have h2 := get_birth_governorate_error heq
              rw [h] at h2
              exact absurd h2 (by simp)
            · split at h
              · rename_i e heq
                injection h with h
                have h2 := pyIntChar_error heq
                rw [h] at h2
                exact absurd h2 (by simp)
              · split at h
                · rename_i g2 e heq
                  rw [get_gender_ok] at heq
                  exact absurd heq (by simp)
                · exact absurd h (by simp)

/-- C4 (witness): instantiating the parity theorem on the concrete
successful parse of `"29501023201902"`, whose gender digit is 0. -/
theorem c4_gender_parity_witness :
    ∃ v, pyDigitVal? (charAt ("29501023201902".data) 12) = some v ∧
      (ENID.mk 20 "1995-01-02" "New Valley" "0190" "Female").gender =
        (if v % 2 = 0 then "Female" else "Male") :=
  (c4_gender_parity d20230101 "29501023201902").1
    ⟨20, "1995-01-02", "New Valley", "0190", "Female"⟩ (by decide)

/-- C6 (counterexample): a length-14 input written entirely in
Arabic-Indic digits contains characters that are not ASCII decimal
digits, yet `parse_str` does not fail with `MalformedInput` — Python's
`str.isdigit` accepts them, and the parse instead dies later with the
`ValueError` that `strptime` raises on the non-ASCII month slice. -/
theorem c6_counterexample :
    '٢' ∈ "٢٩٥٠١٠٢٣٢٠١٩٥٢".data ∧ isAsciiDigit '٢' = false ∧
    "٢٩٥٠١٠٢٣٢٠١٩٥٢".data.length = 14 ∧
    parse_str d20230101 "٢٩٥٠١٠٢٣٢٠١٩٥٢" = Except.error Err.valueError ∧
    Err.valueError ≠ Err.malformedInput := by
  decide

/-- C6 (amended): `parse_str` fails with `MalformedInput` exactly when
the length differs from 14 or some character fails Python's
`str.isdigit` — which accepts non-ASCII Unicode digits, so a length-14
input whose characters are all digits in the `str.isdigit` sense passes
the structural check even when none of them is an ASCII decimal
digit. -/
theorem c6_structural_check (now : Date) (s : String) :
    ((s.data.length ≠ 14 ∨ pyStrIsDigit s.data = false) →
      parse_str now s = Except.error Err.malformedInput) ∧
    (s.data.length = 14 → pyStrIsDigit s.data = true →
      parse_str now s ≠ Except.error Err.malformedInput) := by
  constructor
  · intro hcond
    unfold parse_str
    rw [if_pos hcond]
  · intro h14 hdig h
    unfold parse_str at h
    rw [if_neg (by simp [h14, hdig])] at h
    split at h
    · rename_i e heq
      injection h with h
      exact pyIntChar_ne_malformed _ (h ▸ heq)
    · split at h
      · rename_i e heq
        injection h with h
        exact get_birth_century_ne_malformed _ _ (h ▸ heq)
      · split at h
        · rename_i e heq
          injection h with h
          exact convert_birthdate_ne_malformed _ _ (h ▸ heq)
        · split at h
          · rename_i e heq
            injection h with h
            exact get_birth_governorate_ne_malformed _ (h ▸ heq)
          · split at h
            · rename_i e heq
              injection h with h
              exact pyIntChar_ne_malformed _ (h ▸ heq)
            · split at h
              · rename_i g2 e heq
                rw [get_gender_ok] at heq
                exact absurd heq (by simp)
              · exact absurd h (by simp)

/-- C6 (witness): a short input triggers `MalformedInput`. -/
theorem c6_structural_check_witness :
    parse_str d20230101 "123" = Except.error Err.malformedInput :=
  (c6_structural_check d20230101 "123").1 (Or.inl (by decide))

/-- C9: in every record `parse_str` constructs, the gender field agrees
with the parity of the last character of the 4-character sequence field
(the input digit at index 12, shared between both fields): odd digit ↔
Male, even digit (0 included) ↔ Female. -/
theorem c9_gender_sequence_consistent (now : Date) (s : String) (r : ENID)
    (h : parse_str now s = Except.ok r) :
    ∃ v, r.sequence_in_computer.data.length = 4 ∧
      pyDigitVal? (charAt r.sequence_in_computer.data 3) = some v ∧
      (r.gender = "Male" ↔ v % 2 = 1) ∧
      (r.gender = "Female" ↔ v % 2 = 0) := by
  obtain ⟨h14, hdig, d0, bc, ds, gov, g, h0, hbc, hds, hgov, hg, hr⟩ :=
    parse_str_ok_inversion h
  obtain ⟨c0, c1, c2, c3, c4, c5, c6, c7, c8, c9, c10, c11, c12, c13, hL⟩ :=
    list_len14 s.data h14
  subst hr
  rw [hL] at hg ⊢
  refine ⟨g, rfl, ?_, ?_, ?_⟩
  · have hg2 : pyIntChar c12 = Except.ok g := hg
    show pyDigitVal? c12 = some g
    unfold pyIntChar at hg2
    rcases hv : pyDigitVal? c12 with _ | v
    · rw [hv] at hg2
      exact absurd hg2 (by simp)
    · rw [hv] at hg2
      injection hg2 with hg2
      rw [hg2]
  · show (if g % 2 = 0 then "Female" else "Male") = "Male" ↔ g % 2 = 1
    rcases Nat.mod_two_eq_zero_or_one g with hm | hm <;> rw [hm] <;> simp
  · show (if g % 2 = 0 then "Female" else "Male") = "Female" ↔ g % 2 = 0
    rcases Nat.mod_two_eq_zero_or_one g with hm | hm <;> rw [hm] <;> simp

/-- C9 (witness): instantiating the invariant on the concrete
successful parse of `"29501023201952"`. -/
theorem c9_gender_sequence_consistent_witness :
    ∃ v, (ENID.sequence_in_computer
        ⟨20, "1995-01-02", "New Valley", "0195", "Male"⟩).data.length = 4 ∧
      pyDigitVal? (charAt (ENID.sequence_in_computer
        ⟨20, "1995-01-02", "New Valley", "0195", "Male"⟩).data 3) = some v ∧
      (ENID.gender ⟨20, "1995-01-02", "New Valley", "0195", "Male"⟩ = "Male" ↔
        v % 2 = 1) ∧
      (ENID.gender ⟨20, "1995-01-02", "New Valley", "0195", "Male"⟩ = "Female" ↔
        v % 2 = 0) :=
  c9_gender_sequence_consistent d20230101 "29501023201952"
    ⟨20, "1995-01-02", "New Valley", "0195", "Male"⟩ (by decide)

/-- C8: `parse_str` is fail-fast in the order structural check, century,
date, governorate, gender: a failing structural check yields
`MalformedInput` whatever the content; after it passes, the first step
to raise determines the result, and when every step succeeds the fully
assembled record of all five fields is returned. -/
theorem c8_fail_fast (now : Date) (s : String) :
    ((s.data.length ≠ 14 ∨ pyStrIsDigit s.data = false) →
      parse_str now s = Except.error Err.malformedInput) ∧
    (s.data.length = 14 → pyStrIsDigit s.data = true →
      (∀ e, pyIntChar (charAt s.data 0) = Except.error e →
        parse_str now s = Except.error e) ∧
      (∀ d0, pyIntChar (charAt s.data 0) = Except.ok d0 →
        (∀ e, get_birth_century now d0 = Except.error e →
          parse_str now s = Except.error e) ∧
        (∀ bc, get_birth_century now d0 = Except.ok bc →
          (∀ e, convert_birthdate now (slice s.data 0 7) = Except.error e →
            parse_str now s = Except.error e) ∧
          (∀ ds, convert_birthdate now (slice s.data 0 7) = Except.ok ds →
            (∀ e, get_birth_governorate (String.mk (slice s.data 7 9)) =
                Except.error e → parse_str now s = Except.error e) ∧
            (∀ gov, get_birth_governorate (String.mk (slice s.data 7 9)) =
                Except.ok gov →
              (∀ e, pyIntChar (charAt s.data 12) = Except.error e →
                parse_str now s = Except.error e) ∧
              (∀ g, pyIntChar (charAt s.data 12) = Except.ok g →
                (∀ e, get_gender g = Except.error e →
                  parse_str now s = Except.error e) ∧
                (∀ gen, get_gender g = Except.ok gen →
                  parse_str now s = Except.ok ⟨bc, ds, gov,
                    String.mk (slice s.data 9 13), gen⟩))))))) := by
  constructor
  · intro hcond
    unfold parse_str
    rw [if_pos hcond]
  · intro h14 hdig
    have hno : ¬(s.data.length ≠ 14 ∨ pyStrIsDigit s.data = false) := by
      simp [h14, hdig]
    constructor
    · intro e he
      unfold parse_str
      rw [if_neg hno]
      simp only [he]
    · intro d0 h0
      constructor
      · intro e he
        unfold parse_str
        rw [if_neg hno]
        simp only [h0, he]
      · intro bc hbc
        constructor
        · intro e he
          unfold parse_str
          rw [if_neg hno]
          simp only [h0, hbc, he]
        · intro ds hds
          constructor
          · intro e he
            unfold parse_str
            rw [if_neg hno]
            simp only [h0, hbc, hds, he]
          · intro gov hgov
            constructor
            · intro e he
              unfold parse_str
              rw [if_neg hno]
              simp only [h0, hbc, hds, hgov, he]
            · intro g hg
              constructor
              · intro e he
                unfold parse_str
                rw [if_neg hno]
                simp only [h0, hbc, hds, hgov, hg, he]
              · intro gen hgen
                unfold parse_str
                rw [if_neg hno]
                simp only [h0, hbc, hds, hgov, hg, hgen]

/-- C8 (witness): a non-digit input triggers the structural failure. -/
theorem c8_fail_fast_witness :
    parse_str d20230101 "abc" = Except.error Err.malformedInput :=
  (c8_fail_fast d20230101 "abc").1 (Or.inl (by decide))

/-- C5 (amended): the governorate table is a fixed mapping with exactly
28 entries whose keys are exactly 01–04, 11–19, 21–29, 31–35 and 88;
for every 14-digit input on which the earlier steps (structure, leading
`int()`, century, date) succeed, `parse_str` fails with
`UnknownGovernorate` exactly when the two characters at positions 7–8
are not a key of the table, and otherwise the parsed record's
birth_governorate is the table's value for that key. -/
theorem c5_governorates_table :
    governorates.map Prod.fst = ["01", "02", "03", "04", "11", "12", "13",
      "14", "15", "16", "17", "18", "19", "21", "22", "23", "24", "25",
      "26", "27", "28", "29", "31", "32", "33", "34", "35", "88"] ∧
    ∀ (now : Date) (s : String), s.data.length = 14 →
      (∀ c ∈ s.data, isAsciiDigit c = true) →
      ∀ ds, convert_birthdate now (slice s.data 0 7) = Except.ok ds →
        ((parse_str now s = Except.error Err.unknownGovernorate ↔
          assocLookup (String.mk (slice s.data 7 9)) governorates = none) ∧
        ∀ v, assocLookup (String.mk (slice s.data 7 9)) governorates = some v →
          ∃ r, parse_str now s = Except.ok r ∧ r.birth_governorate = v) := by
  constructor
  · decide
  · intro now s h14 hd ds hds
    obtain ⟨c0, c1, c2, c3, c4, c5, c6, c7, c8, c9, c10, c11, c12, c13, hL⟩ :=
      list_len14 s.data h14
    have hdig : pyStrIsDigit s.data = true := by
      rw [hL, pyStrIsDigit]
      simp only [List.isEmpty_cons, Bool.not_false, Bool.true_and,
        List.all_cons, List.all_nil, Bool.and_true, Bool.and_eq_true]
      rw [hL] at hd
      refine ⟨ascii_imp_pyIsDigit (hd c0 (by simp)), ?_, ?_, ?_, ?_, ?_, ?_,
        ?_, ?_, ?_, ?_, ?_, ?_, ?_⟩ <;>
        exact ascii_imp_pyIsDigit (hd _ (by simp))
    have hno : ¬(s.data.length ≠ 14 ∨ pyStrIsDigit s.data = false) := by
      simp [h14, hdig]
    obtain ⟨code, bc, h0c, hbc⟩ := convert_birthdate_ok_inversion hds
    have h0 : pyIntChar (charAt s.data 0) = Except.ok code := by
      rw [hL]
      rw [hL] at h0c
      exact h0c
    have hm12 : c12 ∈ s.data := by
      rw [hL]
      simp
    obtain ⟨w, hw, hc12⟩ := asciiDigit_inv (hd c12 hm12)
    have h12 : pyIntChar (charAt s.data 12) = Except.ok w := by
      rw [hL]
      show pyIntChar c12 = Except.ok w
      rw [hc12]
      exact pyIntChar_digitChar hw
    rcases hlook : assocLookup (String.mk (slice s.data 7 9)) governorates
      with _ | v
    · have hp : parse_str now s = Except.error Err.unknownGovernorate := by
        unfold parse_str
        rw [if_neg hno]
        simp only [h0, hbc, hds, get_birth_governorate, hlook]
      refine ⟨⟨fun _ => rfl, fun _ => hp⟩, ?_⟩
      intro v hv
      exact absurd hv (by simp)
    · have hp : parse_str now s = Except.ok ⟨bc, ds, v,
          String.mk (slice s.data 9 13),
          if w % 2 = 0 then "Female" else "Male"⟩ := by
        unfold parse_str
        rw [if_neg hno]
        simp only [h0, hbc, hds, get_birth_governorate, hlook, h12,
          get_gender_ok]
      refine ⟨⟨fun hcontra => ?_, fun hcontra => ?_⟩, ?_⟩
      · rw [hp] at hcontra
        exact absurd hcontra (by simp)
      · exact absurd hcontra (by simp)
      · intro v2 hv2
        injection hv2 with hv2
        exact ⟨_, hp, hv2⟩

/-- C5 (witness): the governorate code `"99"` in an otherwise valid
input triggers `UnknownGovernorate`. -/
theorem c5_governorates_table_witness :
    parse_str d20230101 "29501029901952" = Except.error Err.unknownGovernorate :=
  ((c5_governorates_table.2 d20230101 "29501029901952" (by decide) (by decide)
    "1995-01-02" (by decide)).1).mpr (by decide)

/-- Helper: digit characters satisfy `pyIsDigit` (value form). -/
theorem pyIsDigit_digitChar {v : Nat} (h : v < 10) :
    pyIsDigit (digitChar v) = true := pyIsDigit_digitChar_fin ⟨v, h⟩

/-- Helper: `int()` of a two-digit string (value form). -/
theorem pyIntList_two {a b : Nat} (ha : a < 10) (hb : b < 10) :
    pyIntList [digitChar a, digitChar b] = Except.ok (10 * a + b) :=
  pyIntList_two_fin ⟨a, ha⟩ ⟨b, hb⟩

/-- Helper: the month regex on two digit characters (value form). -/
theorem matchMonth2_digits {a b : Nat} (ha : a < 10) (hb : b < 10)
    (h1 : 1 ≤ 10 * a + b) (h2 : 10 * a + b ≤ 12) :
    matchMonth2 [digitChar a, digitChar b] = some (10 * a + b) :=
  matchMonth2_digits_fin ⟨a, ha⟩ ⟨b, hb⟩ h1 h2

/-- Helper: the day regex on two digit characters (value form). -/
theorem matchDay2_digits {a b : Nat} (ha : a < 10) (hb : b < 10)
    (h1 : 1 ≤ 10 * a + b) (h2 : 10 * a + b ≤ 31) :
    matchDay2 [digitChar a, digitChar b] = some (10 * a + b) :=
  matchDay2_digits_fin ⟨a, ha⟩ ⟨b, hb⟩ h1 h2

/-- C7: for every 14-digit input satisfying the spec's century, date,
governorate and gender constraints, `parse_str` succeeds, and the first
13 characters of the input (all but the check digit) are reconstructed
exactly from the record's fields: the century digit from
`birth_century - 18`, `yymmdd` from the date string, the governorate
code from the inverse table lookup, and the sequence verbatim. -/
theorem c7_roundtrip (now : Date) (s : String)
    (h14 : s.data.length = 14)
    (hd : ∀ c ∈ s.data, isAsciiDigit c = true)
    (hc : specConstraints now s.data = true) :
    ∃ r, parse_str now s = Except.ok r ∧
      reconstruct13 r = some (s.data.take 13) := by
  obtain ⟨c0, c1, c2, c3, c4, c5, c6, c7, c8, c9, c10, c11, c12, c13, hL⟩ :=
    list_len14 s.data h14
  rw [hL] at hd
  obtain ⟨v0, hv0, rfl⟩ := asciiDigit_inv (hd c0 (by simp))
  obtain ⟨v1, hv1, rfl⟩ := asciiDigit_inv (hd c1 (by simp))
  obtain ⟨v2, hv2, rfl⟩ := asciiDigit_inv (hd c2 (by simp))
  obtain ⟨v3, hv3, rfl⟩ := asciiDigit_inv (hd c3 (by simp))
  obtain ⟨v4, hv4, rfl⟩ := asciiDigit_inv (hd c4 (by simp))
  obtain ⟨v5, hv5, rfl⟩ := asciiDigit_inv (hd c5 (by simp))
  obtain ⟨v6, hv6, rfl⟩ := asciiDigit_inv (hd c6 (by simp))
  obtain ⟨v7, hv7, rfl⟩ := asciiDigit_inv (hd c7 (by simp))
  obtain ⟨v8, hv8, rfl⟩ := asciiDigit_inv (hd c8 (by simp))
  obtain ⟨v9, hv9, rfl⟩ := asciiDigit_inv (hd c9 (by simp))
  obtain ⟨v10, hv10, rfl⟩ := asciiDigit_inv (hd c10 (by simp))
  obtain ⟨v11, hv11, rfl⟩ := asciiDigit_inv (hd c11 (by simp))
  obtain ⟨v12, hv12, rfl⟩ := asciiDigit_inv (hd c12 (by simp))
  obtain ⟨v13, hv13, rfl⟩ := asciiDigit_inv (hd c13 (by simp))
  have ca0 : charAt [digitChar v0, digitChar v1, digitChar v2, digitChar v3,
      digitChar v4, digitChar v5, digitChar v6, digitChar v7, digitChar v8,
      digitChar v9, digitChar v10, digitChar v11, digitChar v12,
      digitChar v13] 0 = digitChar v0 := rfl
  have ca1 : charAt [digitChar v0, digitChar v1, digitChar v2, digitChar v3,
      digitChar v4, digitChar v5, digitChar v6, digitChar v7, digitChar v8,
      digitChar v9, digitChar v10, digitChar v11, digitChar v12,
      digitChar v13] 1 = digitChar v1 := rfl
  have ca2 : charAt [digitChar v0, digitChar v1, digitChar v2, digitChar v3,
      digitChar v4, digitChar v5, digitChar v6, digitChar v7, digitChar v8,
      digitChar v9, digitChar v10, digitChar v11, digitChar v12,
      digitChar v13] 2 = digitChar v2 := rfl
  have ca3 : charAt [digitChar v0, digitChar v1, digitChar v2, digitChar v3,
      digitChar v4, digitChar v5, digitChar v6, digitChar v7, digitChar v8,
      digitChar v9, digitChar v10, digitChar v11, digitChar v12,
      digitChar v13] 3 = digitChar v3 := rfl
  have ca4 : charAt [digitChar v0, digitChar v1, digitChar v2, digitChar v3,
      digitChar v4, digitChar v5, digitChar v6, digitChar v7, digitChar v8,
      digitChar v9, digitChar v10, digitChar v11, digitChar v12,
      digitChar v13] 4 = digitChar v4 := rfl
  have ca5 : charAt [digitChar v0, digitChar v1, digitChar v2, digitChar v3,
      digitChar v4, digitChar v5, digitChar v6, digitChar v7, digitChar v8,
      digitChar v9, digitChar v10, digitChar v11, digitChar v12,
      digitChar v13] 5 = digitChar v5 := rfl
  have ca6 : charAt [digitChar v0, digitChar v1, digitChar v2, digitChar v3,
      digitChar v4, digitChar v5, digitChar v6, digitChar v7, digitChar v8,
      digitChar v9, digitChar v10, digitChar v11, digitChar v12,
      digitChar v13] 6 = digitChar v6 := rfl
  have ca12 : charAt [digitChar v0, digitChar v1, digitChar v2, digitChar v3,
      digitChar v4, digitChar v5, digitChar v6, digitChar v7, digitChar v8,
      digitChar v9, digitChar v10, digitChar v11, digitChar v12,
      digitChar v13] 12 = digitChar v12 := rfl
  have sl79 : slice [digitChar v0, digitChar v1, digitChar v2, digitChar v3,
      digitChar v4, digitChar v5, digitChar v6, digitChar v7, digitChar v8,
      digitChar v9, digitChar v10, digitChar v11, digitChar v12,
      digitChar v13] 7 9 = [digitChar v7, digitChar v8] := rfl
  rw [hL] at hc
  simp only [specConstraints, ca0, ca1, ca2, ca3, ca4, ca5, ca6, ca12, sl79,
    digitVal_digitChar hv0, digitVal_digitChar hv1, digitVal_digitChar hv2,
    digitVal_digitChar hv3, digitVal_digitChar hv4, digitVal_digitChar hv5,
    digitVal_digitChar hv6, digitVal_digitChar hv12,
    Bool.and_eq_true, decide_eq_true_eq] at hc
  obtain ⟨⟨⟨⟨⟨⟨⟨⟨⟨⟨h19, hcc⟩, hm1⟩, hm2⟩, hdd1⟩, hdd2⟩, hge⟩, hle⟩,
    hsome⟩, hg1⟩, hg2⟩ := hc
  have em : v3 * 10 + v4 = 10 * v3 + v4 := by omega
  have edd : v5 * 10 + v6 = 10 * v5 + v6 := by omega
  have ey : (v0 + 18 - 1) * 100 + (v1 * 10 + v2) =
      (v0 + 18) * 100 - 100 + (10 * v1 + v2) := by omega
  rw [em, edd, ey] at hdd2
  rw [em, edd, ey] at hge
  rw [em] at hm1 hm2
  rw [edd] at hdd1
  obtain ⟨gov, hkv2⟩ := Option.isSome_iff_exists.mp hsome
  have hdig : pyStrIsDigit s.data = true := by
    rw [hL, pyStrIsDigit]
    simp only [List.isEmpty_cons, Bool.not_false, Bool.true_and,
      List.all_cons, List.all_nil, Bool.and_true, Bool.and_eq_true]
    exact ⟨pyIsDigit_digitChar hv0, pyIsDigit_digitChar hv1,
      pyIsDigit_digitChar hv2, pyIsDigit_digitChar hv3,
      pyIsDigit_digitChar hv4, pyIsDigit_digitChar hv5,
      pyIsDigit_digitChar hv6, pyIsDigit_digitChar hv7,
      pyIsDigit_digitChar hv8, pyIsDigit_digitChar hv9,
      pyIsDigit_digitChar hv10, pyIsDigit_digitChar hv11,
      pyIsDigit_digitChar hv12, pyIsDigit_digitChar hv13⟩
  have hno : ¬(s.data.length ≠ 14 ∨ pyStrIsDigit s.data = false) := by
    simp [h14, hdig]
  have h0 : pyIntChar (charAt s.data 0) = Except.ok v0 := by
    rw [hL]
    exact pyIntChar_digitChar hv0
  have h12 : pyIntChar (charAt s.data 12) = Except.ok v12 := by
    rw [hL]
    exact pyIntChar_digitChar hv12
  have hbc : get_birth_century now v0 = Except.ok (v0 + 18) := by
    unfold get_birth_century
    dsimp only
    rw [if_neg (by omega)]
  have hnl : Date.ltB ⟨(v0 + 18) * 100 - 100 + (10 * v1 + v2),
      10 * v3 + v4, 10 * v5 + v6⟩ ⟨1900, 1, 1⟩ = false :=
    Date_ltB_false_of_leB hge
  have hstrp : strptimeYmd ((v0 + 18) * 100 - 100 + (10 * v1 + v2))
      [digitChar v3, digitChar v4] [digitChar v5, digitChar v6] =
      Except.ok ⟨(v0 + 18) * 100 - 100 + (10 * v1 + v2),
        10 * v3 + v4, 10 * v5 + v6⟩ := by
    unfold strptimeYmd
    rw [if_neg (by omega)]
    rw [matchMonth2_digits hv3 hv4 hm1 hm2,
      matchDay2_digits hv5 hv6 hdd1
        (le_trans hdd2 (daysInMonth_le_31 _ _))]
    dsimp only
    rw [if_pos hdd2]
  have ca0s : charAt [digitChar v0, digitChar v1, digitChar v2, digitChar v3,
      digitChar v4, digitChar v5, digitChar v6] 0 = digitChar v0 := rfl
  have sl13s : slice [digitChar v0, digitChar v1, digitChar v2, digitChar v3,
      digitChar v4, digitChar v5, digitChar v6] 1 3 =
      [digitChar v1, digitChar v2] := rfl
  have sl35s : slice [digitChar v0, digitChar v1, digitChar v2, digitChar v3,
      digitChar v4, digitChar v5, digitChar v6] 3 5 =
      [digitChar v3, digitChar v4] := rfl
  have dr5s : List.drop 5 [digitChar v0, digitChar v1, digitChar v2,
      digitChar v3, digitChar v4, digitChar v5, digitChar v6] =
      [digitChar v5, digitChar v6] := rfl
  have hconvLit : convert_birthdate now [digitChar v0, digitChar v1,
      digitChar v2, digitChar v3, digitChar v4, digitChar v5, digitChar v6] =
      Except.ok (String.mk
        (natDigits ((v0 + 18) * 100 - 100 + (10 * v1 + v2)) ++
          '-' :: [digitChar v3, digitChar v4] ++
          '-' :: [digitChar v5, digitChar v6])) := by
    unfold convert_birthdate
    dsimp only
    simp only [ca0s, sl13s, sl35s, dr5s, pyIntChar_digitChar hv0, hbc,
      pyIntList_two hv1 hv2, hstrp]
    rw [if_neg (by simp [hnl])]
  have hconv : convert_birthdate now (slice s.data 0 7) =
      Except.ok (String.mk
        (natDigits ((v0 + 18) * 100 - 100 + (10 * v1 + v2)) ++
          '-' :: [digitChar v3, digitChar v4] ++
          '-' :: [digitChar v5, digitChar v6])) := by
    rw [hL]
    exact hconvLit
  have hkv : assocLookup (String.mk (slice s.data 7 9)) governorates =
      some gov := by
    rw [hL]
    exact hkv2
  have hp : parse_str now s = Except.ok ⟨v0 + 18,
      String.mk (natDigits ((v0 + 18) * 100 - 100 + (10 * v1 + v2)) ++
        '-' :: [digitChar v3, digitChar v4] ++
        '-' :: [digitChar v5, digitChar v6]),
      gov, String.mk (slice s.data 9 13),
      if v12 % 2 = 0 then "Female" else "Male"⟩ := by
    unfold parse_str
    rw [if_neg hno]
    simp only [h0, hbc, hconv, get_birth_governorate, hkv, h12, get_gender_ok]
  refine ⟨_, hp, ?_⟩
  have hinv : invAssocLookup gov governorates =
      some (String.mk [digitChar v7, digitChar v8]) :=
    assocLookup_inv governorates governorates_snd_nodup hkv2
  rw [hL]
  simp only [reconstruct13, hinv]
  rw [natDigits_four (by omega) (by omega)]
  rw [show ((v0 + 18) * 100 - 100 + (10 * v1 + v2)) / 10 % 10 = v1 by omega]
  rw [show ((v0 + 18) * 100 - 100 + (10 * v1 + v2)) % 10 = v2 by omega]
  rw [show v0 + 18 - 18 = v0 by omega]
  rfl

/-- C7 (witness): the round-trip theorem instantiated on the concrete
valid input `"29501023201952"` with now = 2023-01-01. -/
theorem c7_roundtrip_witness :
    ∃ r, parse_str d20230101 "29501023201952" = Except.ok r ∧
      reconstruct13 r = some ("29501023201952".data.take 13) :=
  c7_roundtrip d20230101 "29501023201952" (by decide) (by decide) (by decide)

/-- C10: there is a 14-character input containing no ASCII digit at all
(here, all Devanagari digits) that passes the structural check, because
Python's `str.isdigit` accepts any Unicode digit; `parse_str` does not
raise `MalformedInput` on it (it fails later, with the `ValueError`
that `strptime` raises on the non-ASCII month slice). -/
theorem c10_isdigit_accepts_non_ascii :
    ∃ s : String, s.data.length = 14 ∧
      s.data.all (fun c => !(isAsciiDigit c)) = true ∧
      parse_str d20230101 s ≠ Except.error Err.malformedInput := by
  exact ⟨"२९५०१०२३२०१९५२", by decide, by decide, by decide⟩

end EgNid
